import Mathlib

/-!
Verification of `timeSystemLib.py` from fermi-lat/timeSystem.

The Python module is an SCons-style build fragment with two functions:

```
def generate(env, **kw):
    if not kw.get('depsOnly',0):
        env.Tool('addLibrary', library = ['timeSystem'])
    env.Tool('st_facilitiesLib')
    env.Tool('st_streamLib')
    env.Tool('tipLib')
    env.Tool('st_appLib')
    env.Tool('addLibrary', library = env['cfitsioLibs'])

def exists(env):
    return 1
```

Shallow embedding: every `env.Tool(...)` invocation is recorded as a `Call`
in the order the Python code issues it, so `generate` becomes a pure
function from the environment's configuration mapping and the keyword
mapping to the list of issued calls together with an optional error.
The environment's registration capability (`Tool`) is modelled as the pure
act of recording the call; the environment's configuration subscript
`env['cfitsioLibs']` is the one fallible operation (Python raises
`KeyError` when the key is absent), and that lookup happens after the
first five (or four) `Tool` calls have already been issued, exactly as in
the source line order.
-/

/-- A Python value, as far as the truthiness test `not kw.get('depsOnly',0)`
needs to observe it. -/
inductive PyVal where
  | none
  | bool (b : Bool)
  | int (n : Int)
  | str (s : String)
  | list (xs : List PyVal)
deriving Repr

/-- Python truthiness: `None`, `False`, `0`, `""` and `[]` are falsy,
everything else is truthy. -/
def PyVal.truthy : PyVal → Bool
  | PyVal.none => false
  | PyVal.bool b => b
  | PyVal.int n => n != 0
  | PyVal.str s => !s.isEmpty
  | PyVal.list xs => !xs.isEmpty

/-- The keyword-argument mapping `**kw`: a total map from names to an
optional Python value. -/
def Kw : Type := String → Option PyVal

/-- Python's `dict.get(key, default)`. -/
def dictGet (kw : Kw) (k : String) (d : PyVal) : PyVal :=
  (kw k).getD d

/-- The build environment, reduced to the one capability `generate` reads:
its configuration mapping (`env[key]`).  Per the spec the values under the
third-party key form an ordered sequence of library-name strings. -/
structure Env where
  config : String → Option (List String)

/-- One `env.Tool(...)` invocation: the tool name, and the `library`
keyword argument when one is passed. -/
inductive Call where
  | tool (name : String) (library : Option (List String))
deriving DecidableEq, Repr

/-- The tool name of a recorded call. -/
def Call.name : Call → String
  | Call.tool n _ => n

/-- The `library` keyword argument of a recorded call. -/
def Call.library : Call → Option (List String)
  | Call.tool _ l => l

/-- A Python exception as observed by the caller of `generate`. -/
inductive PyError where
  | keyError (k : String)
deriving DecidableEq, Repr

/-- The artifact-registration call issued by line 4 of the source:
`env.Tool('addLibrary', library = ['timeSystem'])`. -/
def artifactCall : Call :=
  Call.tool "addLibrary" (some ["timeSystem"])

/-- The four fixed dependency-registration calls of lines 5–8, in source
order. -/
def depCalls : List Call :=
  [Call.tool "st_facilitiesLib" Option.none,
   Call.tool "st_streamLib" Option.none,
   Call.tool "tipLib" Option.none,
   Call.tool "st_appLib" Option.none]

/-- Embedding of `generate(env, **kw)`.  Returns the list of `env.Tool`
calls issued, in order, paired with `some e` when a Python exception
escapes (the `KeyError` from `env['cfitsioLibs']` on a missing key, raised
only after the earlier calls were already issued) and `Option.none` on
normal return. -/
def generate (env : Env) (kw : Kw) : List Call × Option PyError :=
  let pre : List Call :=
    if (dictGet kw "depsOnly" (PyVal.int 0)).truthy then []
    else [artifactCall]
  match env.config "cfitsioLibs" with
  | some libs =>
      (pre ++ depCalls ++ [Call.tool "addLibrary" (some libs)], Option.none)
  | Option.none =>
      (pre ++ depCalls, some (PyError.keyError "cfitsioLibs"))

/-- Embedding of `exists(env)`: it returns the constant `1` and issues no
calls into the environment, so its trace component is `[]`. -/
def «exists» (env : Env) : Int × List Call :=
  (1, [])

/-- The Python module defines no module-level mutable state (its body is
just the two `def`s), so the module-state type of the embedding is `Unit`
and an invocation threads it unchanged. -/
def ModuleState : Type := Unit

/-- `generate` as a state-threading operation on the (trivial) module
state, for stating idempotence of repeated invocation. -/
def generateSt (s : ModuleState) (env : Env) (kw : Kw) :
    ModuleState × (List Call × Option PyError) :=
  (s, generate env kw)

/-- A keyword mapping with no entries (Python call `generate(env)`). -/
def kwEmpty : Kw := fun _ => Option.none

/-- A keyword mapping binding only `depsOnly = True`. -/
def kwDepsOnly : Kw :=
  fun k => if k = "depsOnly" then some (PyVal.bool true) else Option.none

/-- An environment whose configuration binds `cfitsioLibs` to
`['cfitsio']`. -/
def envCfitsio : Env :=
  ⟨fun k => if k = "cfitsioLibs" then some ["cfitsio"] else Option.none⟩

/-- An adversarial environment whose configuration binds `cfitsioLibs` to
`['timeSystem']`, making the final `addLibrary` call identical to the
artifact-registration call. -/
def envTS : Env :=
  ⟨fun k => if k = "cfitsioLibs" then some ["timeSystem"] else Option.none⟩

/-- An environment whose configuration binds no key at all. -/
def envBare : Env := ⟨fun _ => Option.none⟩

/-- A keyword mapping binding `depsOnly = 0` explicitly (present but falsy). -/
def kwZero : Kw :=
  fun k => if k = "depsOnly" then some (PyVal.int 0) else Option.none

/-- An environment agreeing with `envCfitsio` on `cfitsioLibs` but differing
on every other key, for the determinism witness. -/
def envCfitsioNoisy : Env :=
  ⟨fun k => if k = "cfitsioLibs" then some ["cfitsio"] else some ["extra"]⟩

/-- Claim C1: for every environment and every options mapping, `generate`
issues exactly four fixed-name dependency-registration calls (the `Tool`
calls other than `addLibrary`), in the fixed order `st_facilitiesLib`,
`st_streamLib`, `tipLib`, `st_appLib`. -/
theorem generate_deps_fixed_order (env : Env) (kw : Kw) :
    ((generate env kw).1.filter (fun c => c.name != "addLibrary")) = depCalls := by
  unfold generate
  cases h : env.config "cfitsioLibs" <;>
    cases hd : (dictGet kw "depsOnly" (PyVal.int 0)).truthy <;>
      simp [hd, depCalls, artifactCall, Call.name]

/-- Claim C2, counterexample: with `cfitsioLibs` bound to `['timeSystem']`
and `depsOnly` absent, the call `addLibrary(library=['timeSystem'])`
appears twice in the call sequence (once from line 4, once as the final
third-party registration of line 9), so it does not occur exactly once. -/
theorem generate_artifact_count_counterexample :
    (dictGet kwEmpty "depsOnly" (PyVal.int 0)).truthy = false
    ∧ ¬ ((generate envTS kwEmpty).1.count artifactCall = 1) := by decide

/-- Claim C2 as amended: when `depsOnly` is absent or falsy and the
`cfitsioLibs` configuration value is not `['timeSystem']` itself, `generate`
issues the artifact-registration call `addLibrary(library=['timeSystem'])`
exactly once in the whole call sequence. -/
theorem generate_artifact_once (env : Env) (kw : Kw)
    (hd : (dictGet kw "depsOnly" (PyVal.int 0)).truthy = false)
    (hc : env.config "cfitsioLibs" ≠ some ["timeSystem"]) :
    (generate env kw).1.count artifactCall = 1 := by
  unfold generate
  rw [hd]
  cases h : env.config "cfitsioLibs" with
  | none => decide
  | some libs =>
      have hlibs : libs ≠ ["timeSystem"] := by
        rw [h] at hc; simpa using hc
      simp [List.count_append, List.count_cons, depCalls, artifactCall, hlibs]

/-- Witness for the amended claim C2, at `envCfitsio` and no options. -/
theorem generate_artifact_once_witness :
    ((dictGet kwEmpty "depsOnly" (PyVal.int 0)).truthy = false
     ∧ envCfitsio.config "cfitsioLibs" ≠ some ["timeSystem"])
    ∧ (generate envCfitsio kwEmpty).1.count artifactCall = 1 :=
  ⟨⟨by decide, by decide⟩,
   generate_artifact_once envCfitsio kwEmpty (by decide) (by decide)⟩

/-- Claim C3, counterexample: with `cfitsioLibs` bound to `['timeSystem']`
and `depsOnly` truthy, the final third-party registration of line 9 is the
call `addLibrary(library=['timeSystem'])`, so the call sequence does not
contain zero artifact-registration calls for `timeSystem`. -/
theorem generate_depsOnly_artifact_counterexample :
    (dictGet kwDepsOnly "depsOnly" (PyVal.int 0)).truthy = true
    ∧ ¬ ((generate envTS kwDepsOnly).1.count artifactCall = 0) := by decide

/-- Claim C3 as amended: when `depsOnly` is truthy and the environment
binds `cfitsioLibs` to a value other than `['timeSystem']`, `generate`
issues zero artifact-registration calls for `timeSystem`, and its call
sequence is exactly the four fixed dependency-registration calls followed
by the third-party registration. -/
theorem generate_depsOnly_skips_artifact (env : Env) (kw : Kw) (libs : List String)
    (hd : (dictGet kw "depsOnly" (PyVal.int 0)).truthy = true)
    (hc : env.config "cfitsioLibs" = some libs)
    (hl : libs ≠ ["timeSystem"]) :
    (generate env kw).1 = depCalls ++ [Call.tool "addLibrary" (some libs)]
    ∧ (generate env kw).1.count artifactCall = 0 := by
  unfold generate
  rw [hd, hc]
  refine ⟨rfl, ?_⟩
  simp [List.count_append, List.count_cons, depCalls, artifactCall, hl]

/-- Witness for the amended claim C3, at `envCfitsio` with
`depsOnly = True`. -/
theorem generate_depsOnly_skips_artifact_witness :
    ((dictGet kwDepsOnly "depsOnly" (PyVal.int 0)).truthy = true
     ∧ envCfitsio.config "cfitsioLibs" = some ["cfitsio"]
     ∧ ["cfitsio"] ≠ ["timeSystem"])
    ∧ ((generate envCfitsio kwDepsOnly).1
         = depCalls ++ [Call.tool "addLibrary" (some ["cfitsio"])]
       ∧ (generate envCfitsio kwDepsOnly).1.count artifactCall = 0) :=
  ⟨⟨by decide, by decide, by decide⟩,
   generate_depsOnly_skips_artifact envCfitsio kwDepsOnly ["cfitsio"]
     (by decide) (by decide) (by decide)⟩

/-- Claim C4, counterexample: with `cfitsioLibs` bound to `['timeSystem']`
and `depsOnly` absent, two registration calls carry the argument list bound
to `cfitsioLibs` (the line-4 artifact call and the line-9 third-party
call), so there is not exactly one such call. -/
theorem generate_thirdparty_count_counterexample :
    envTS.config "cfitsioLibs" = some ["timeSystem"]
    ∧ ¬ ((generate envTS kwEmpty).1.count
           (Call.tool "addLibrary" (some ["timeSystem"])) = 1) := by decide

/-- Claim C4 as amended: for every environment binding `cfitsioLibs` to a
value `libs`, the final call issued by `generate` is the registration
`addLibrary(library=libs)` — unconditionally; and it is the unique call
with that argument list provided `libs` is not `['timeSystem']` or
`depsOnly` is truthy. -/
theorem generate_thirdparty_last_unique (env : Env) (kw : Kw) (libs : List String)
    (hc : env.config "cfitsioLibs" = some libs) :
    (generate env kw).1.getLast? = some (Call.tool "addLibrary" (some libs))
    ∧ (libs ≠ ["timeSystem"] ∨ (dictGet kw "depsOnly" (PyVal.int 0)).truthy = true →
       (generate env kw).1.count (Call.tool "addLibrary" (some libs)) = 1) := by
  unfold generate
  rw [hc]
  cases hd : (dictGet kw "depsOnly" (PyVal.int 0)).truthy with
  | true =>
      refine ⟨?_, fun _ => ?_⟩
      · simp [depCalls]
      · simp [List.count_append, List.count_cons, depCalls]
  | false =>
      refine ⟨?_, fun hl => ?_⟩
      · simp [depCalls, artifactCall]
      · have hlibs : libs ≠ ["timeSystem"] := by
          rcases hl with h | h
          · exact h
          · exact absurd h (by decide)
        simp [List.count_append, List.count_cons, depCalls, artifactCall, hlibs]

/-- Witness for the amended claim C4, at `envCfitsio` and no options. -/
theorem generate_thirdparty_last_unique_witness :
    (envCfitsio.config "cfitsioLibs" = some ["cfitsio"]
     ∧ ["cfitsio"] ≠ ["timeSystem"])
    ∧ ((generate envCfitsio kwEmpty).1.getLast?
         = some (Call.tool "addLibrary" (some ["cfitsio"]))
       ∧ (generate envCfitsio kwEmpty).1.count
           (Call.tool "addLibrary" (some ["cfitsio"])) = 1) :=
  ⟨⟨by decide, by decide⟩,
   ⟨(generate_thirdparty_last_unique envCfitsio kwEmpty ["cfitsio"] (by decide)).1,
    (generate_thirdparty_last_unique envCfitsio kwEmpty ["cfitsio"] (by decide)).2
      (Or.inl (by decide))⟩⟩

/-- Claim C5: `exists` returns the truthy constant `1` for every
environment, including the bare stub, and issues no calls into the
environment (its trace is empty). -/
theorem exists_returns_true_no_calls (env : Env) :
    «exists» env = (1, []) := rfl

/-- Claim C6: `generate` raises if and only if the one fallible
environment operation it invokes raises, namely the subscript lookup of
the missing `cfitsioLibs` configuration key, and the escaping error is
exactly that lookup's `KeyError`, never caught or translated.  (The
registration capability `env.Tool` is modelled as infallible, per the
spec's interface model.) -/
theorem generate_error_iff_lookup (env : Env) (kw : Kw) :
    ((generate env kw).2 = some (PyError.keyError "cfitsioLibs")
       ↔ env.config "cfitsioLibs" = Option.none)
    ∧ ((generate env kw).2 = Option.none
       ↔ env.config "cfitsioLibs" ≠ Option.none) := by
  unfold generate
  cases h : env.config "cfitsioLibs" <;> simp

/-- Claim C7: both operations are stateless and idempotent under repeated
invocation: the module state is returned unchanged, a second invocation
from the post-state of the first produces the same output, and each
invocation's output is that of a fresh single run. -/
theorem generateSt_repeat_stateless (env : Env) (kw : Kw) (s : ModuleState) :
    (generateSt s env kw).1 = s
    ∧ (generateSt ((generateSt s env kw).1) env kw).2 = (generateSt s env kw).2
    ∧ (generateSt s env kw).2 = generate env kw :=
  ⟨rfl, rfl, rfl⟩

/-- Claim C8: `generate` is deterministic: its whole output (call sequence
and error) is fully determined by the truthiness of the `depsOnly` option
and the value the configuration binds to `cfitsioLibs`; two runs agreeing
on those two inputs produce identical results, whatever else the
environment or options contain. -/
theorem generate_deterministic (env₁ env₂ : Env) (kw₁ kw₂ : Kw)
    (hd : (dictGet kw₁ "depsOnly" (PyVal.int 0)).truthy
        = (dictGet kw₂ "depsOnly" (PyVal.int 0)).truthy)
    (hc : env₁.config "cfitsioLibs" = env₂.config "cfitsioLibs") :
    generate env₁ kw₁ = generate env₂ kw₂ := by
  unfold generate
  rw [hd, hc]

/-- Witness for claim C8: two environments differing on every key but
`cfitsioLibs`, and `depsOnly` absent versus explicitly `0`, give the same
run. -/
theorem generate_deterministic_witness :
    ((dictGet kwEmpty "depsOnly" (PyVal.int 0)).truthy
       = (dictGet kwZero "depsOnly" (PyVal.int 0)).truthy
     ∧ envCfitsio.config "cfitsioLibs" = envCfitsioNoisy.config "cfitsioLibs")
    ∧ generate envCfitsio kwEmpty = generate envCfitsioNoisy kwZero :=
  ⟨⟨by decide, by decide⟩,
   generate_deterministic envCfitsio envCfitsioNoisy kwEmpty kwZero
     (by decide) (by decide)⟩

/-- Claim C9: whenever `depsOnly` is absent or falsy, the `timeSystem`
artifact registration is the very first call `generate` issues, hence
strictly before the four dependency registrations and the third-party
registration. -/
theorem generate_artifact_head (env : Env) (kw : Kw)
    (h : (dictGet kw "depsOnly" (PyVal.int 0)).truthy = false) :
    (generate env kw).1.head? = some artifactCall := by
  unfold generate
  rw [h]
  cases env.config "cfitsioLibs" <;> rfl

/-- Witness for claim C9, at `envCfitsio` and no options. -/
theorem generate_artifact_head_witness :
    (dictGet kwEmpty "depsOnly" (PyVal.int 0)).truthy = false
    ∧ (generate envCfitsio kwEmpty).1.head? = some artifactCall :=
  ⟨by decide, generate_artifact_head envCfitsio kwEmpty (by decide)⟩

/-- Claim C10: `generate` is not atomic on failure: when the configuration
lacks `cfitsioLibs`, the `KeyError` escapes only after the artifact
registration (when `depsOnly` is absent or falsy) and all four fixed
dependency registrations have already been issued. -/
theorem generate_error_after_calls (env : Env) (kw : Kw)
    (h : env.config "cfitsioLibs" = Option.none) :
    (generate env kw).2 = some (PyError.keyError "cfitsioLibs")
    ∧ (generate env kw).1
      = (if (dictGet kw "depsOnly" (PyVal.int 0)).truthy then []
         else [artifactCall]) ++ depCalls := by
  unfold generate
  rw [h]
  exact ⟨rfl, rfl⟩

/-- Witness for claim C10, at the bare environment and no options. -/
theorem generate_error_after_calls_witness :
    envBare.config "cfitsioLibs" = Option.none
    ∧ ((generate envBare kwEmpty).2 = some (PyError.keyError "cfitsioLibs")
       ∧ (generate envBare kwEmpty).1
         = (if (dictGet kwEmpty "depsOnly" (PyVal.int 0)).truthy then []
            else [artifactCall]) ++ depCalls) :=
  ⟨rfl, generate_error_after_calls envBare kwEmpty rfl⟩
